import Mathlib

/-!
Verification development for the scrape-and-describe pipeline
(`src/app/api/scrape/route.ts`).

The whole core is the `POST` request handler.  We embed it shallowly:

* Effectful collaborator steps (JSON body parsing, browser launch, context
  and page creation, the scrape region `goto`/`waitForLoadState`/
  `evaluate`/`content`, and each call to the language-model backend) are
  modelled by an `Env` record giving each step its outcome
  (`Except String _`: `error` means the awaited promise rejected with that
  message).
* The rendered document is modelled by the results of exactly the DOM
  queries the handler performs (`Document`, `Element`).
* The JSON response is modelled by `ApiResponse`, a record of optional
  fields (a field the handler does not put into the JSON object is `none`).
* Resource accounting (browser launched, `browser.close()` invocations,
  language-model calls) is returned alongside the response in `Trace`.

Control flow is translated statement by statement from the source: an
outer try/catch producing the 500 hard-failure shape, and an inner
try/catch around the scrape-and-synthesize region producing the degraded
shape.
-/

namespace ScrapeRoute

/-- The three destructured fields of the parsed JSON body.  A field absent
from the JSON object destructures to `undefined`, modelled as `none`. -/
structure Body where
  year : Option String
  make : Option String
  model : Option String
deriving DecidableEq, Repr

/-- JavaScript template interpolation of a possibly-`undefined` value:
`undefined` prints as the literal text `"undefined"`. -/
def jsInterp (v : Option String) : String :=
  v.getD "undefined"

/-- The URL built at line 53 of the handler, by literal template
interpolation of the three fields into the catalog path. -/
def buildUrl (year make model : String) : String :=
  "https://www.pro-x.com/product-category/engine/pistons-piston-components/piston-kits/yr-"
    ++ year ++ "/mk-" ++ make ++ "/ml-" ++ model ++ "/"

/-- One element matched by a product selector, modelled by the results of
the sub-queries the extractor performs on it.  Each field is the trimmed
text content (or `src` attribute value) of the first descendant matching
the given sub-selector, `none` when no descendant matches. -/
structure Element where
  /-- Text under `querySelector('h2, .woocommerce-loop-product__title')`. -/
  qH2OrLoopTitle : Option String
  /-- Text under `querySelector('.woocommerce-loop-product__title')`. -/
  qLoopTitle : Option String
  /-- Text under `querySelector('.price, .amount')`. -/
  qPriceOrAmount : Option String
  /-- Text under `querySelector('.price')`. -/
  qPrice : Option String
  /-- Value of `querySelector('img')?.getAttribute('src')`. -/
  qImgSrc : Option String
deriving DecidableEq, Repr

/-- The rendered document, modelled by the results of exactly the queries
the handler runs against it. -/
structure Document where
  /-- Matches of `querySelectorAll('.product')`, in document order. -/
  qProduct : List Element
  /-- Matches of `querySelectorAll('.products .product, ul.products li')`,
  in document order. -/
  qAltProduct : List Element
  /-- Trimmed text under `querySelector('.term-description')`. -/
  qTermDescription : Option String
  /-- Trimmed text under `querySelector('.woocommerce-breadcrumb')`. -/
  qBreadcrumb : Option String
  /-- Trimmed text under `querySelector('h1.page-title')`. -/
  qPageTitle : Option String
  /-- Value of `document.documentElement.outerHTML`. -/
  outerHTML : String
  /-- Result of `page.content()`, the serialized page markup. -/
  content : String
deriving DecidableEq, Repr

/-- One extracted product record: `{ title, price, imageUrl }`. -/
structure ProductRecord where
  title : String
  price : String
  imageUrl : String
deriving DecidableEq, Repr

/-- The page metadata object built by the second `page.evaluate`. -/
structure PageInfo where
  description : String
  breadcrumbs : String
  title : String
  htmlLength : Nat
deriving DecidableEq, Repr

/-- Extraction of one element under the primary tier (lines 88-93):
`'.woocommerce-loop-product__title'`, `'.price'`, `img src`, each
defaulting to the empty string via `?.` and `|| ''`. -/
def extractPrimary (e : Element) : ProductRecord :=
  { title := e.qLoopTitle.getD ""
    price := e.qPrice.getD ""
    imageUrl := e.qImgSrc.getD "" }

/-- Extraction of one element under the secondary tier (lines 79-84):
`'h2, .woocommerce-loop-product__title'`, `'.price, .amount'`, `img src`,
each defaulting to the empty string. -/
def extractSecondary (e : Element) : ProductRecord :=
  { title := e.qH2OrLoopTitle.getD ""
    price := e.qPriceOrAmount.getD ""
    imageUrl := e.qImgSrc.getD "" }

/-- The first `page.evaluate` (lines 73-94): tiered selector strategy.
If `'.product'` matches nothing and the alternative selector matches
something, map the alternative matches; otherwise fall through and map the
(possibly empty) primary matches. -/
def productInfo (d : Document) : List ProductRecord :=
  if d.qProduct.length = 0 then
    if d.qAltProduct.length > 0 then
      d.qAltProduct.map extractSecondary
    else
      d.qProduct.map extractPrimary
  else
    d.qProduct.map extractPrimary

/-- The second `page.evaluate` (lines 97-103): four independent lookups,
each defaulting to the empty string, plus the length of the serialized
document element. -/
def pageContent (d : Document) : PageInfo :=
  { description := d.qTermDescription.getD ""
    breadcrumbs := d.qBreadcrumb.getD ""
    title := d.qPageTitle.getD ""
    htmlLength := d.outerHTML.length }

/-- Line 107: `htmlContent.substring(0, 500) + '...'`. -/
def htmlPreview (htmlContent : String) : String :=
  htmlContent.take 500 ++ "..."

/-- The JSON response, one optional slot per field any of the three
response shapes can carry; `none` means the field is absent from the JSON
object. -/
structure ApiResponse where
  status : Nat
  description : Option String
  products : Option (List ProductRecord)
  pageInfo : Option PageInfo
  url : Option String
  htmlPreview : Option String
  scrapingError : Option Bool
  errorDetails : Option String
  error : Option String
  details : Option String
deriving DecidableEq, Repr

/-- The hard-failure shape (lines 162-168): status 500 with `error` and
`details` only. -/
def hardFailureResp (details : String) : ApiResponse :=
  { status := 500
    description := none
    products := none
    pageInfo := none
    url := none
    htmlPreview := none
    scrapingError := none
    errorDetails := none
    error := some "Error al realizar el scraping"
    details := some details }

/-- The degraded shape (lines 153-158): status 200 with `description`,
`scrapingError: true`, `errorDetails` and `url`; no `products`, no
`pageInfo`. -/
def degradedResp (description errorDetails url : String) : ApiResponse :=
  { status := 200
    description := some description
    products := none
    pageInfo := none
    url := some url
    htmlPreview := none
    scrapingError := some true
    errorDetails := some errorDetails
    error := none
    details := none }

/-- The success shape (lines 127-133): status 200 with `description`,
`products`, `pageInfo`, `url` and `htmlPreview`. -/
def successResp (description : String) (products : List ProductRecord)
    (info : PageInfo) (url preview : String) : ApiResponse :=
  { status := 200
    description := some description
    products := some products
    pageInfo := some info
    url := some url
    htmlPreview := some preview
    scrapingError := none
    errorDetails := none
    error := none
    details := none }

/-- Resource accounting for one request: whether `chromium.launch`
succeeded, how many times `browser.close()` was invoked, and how many
synthesis attempts (LM Studio client/model/respond sequences) ran. -/
structure Trace where
  launched : Bool
  closeCalls : Nat
  respondCalls : Nat
deriving DecidableEq, Repr

/-- The outcomes the environment supplies to one request: each awaited
collaborator step either resolves (`ok`) or rejects with a message
(`error`).  `respond1` is the outcome of the first synthesis attempt of
the request and `respond2` of the second, should one happen; a successful
attempt yields the `result.content` text. -/
structure Env where
  /-- Outcome of `request.json()` followed by destructuring into the three
  fields. -/
  body : Except String Body
  /-- Outcome of `chromium.launch(...)` with the headless option. -/
  launch : Except String Unit
  /-- Outcome of `browser.newContext()`. -/
  newContext : Except String Unit
  /-- Outcome of `context.newPage()`. -/
  newPage : Except String Unit
  /-- The scrape region: `page.goto` (30000 ms timeout),
  `page.waitForLoadState('networkidle')`, both `page.evaluate` calls and
  `page.content()`; success exposes the settled document. -/
  scrape : Except String Document
  /-- First synthesis attempt: `new LMStudioClient()`, `client.llm.model`,
  `llmModel.respond`; success yields `result.content`. -/
  respond1 : Except String String
  /-- Second synthesis attempt, when one happens. -/
  respond2 : Except String String

/-- Shallow embedding of the `POST` handler: the response produced
together with the resource trace, following the source's control flow
statement by statement. -/
def POST (env : Env) : ApiResponse × Trace :=
  match env.body with
  | .error e => (hardFailureResp e, ⟨false, 0, 0⟩)
  | .ok body =>
    let url := buildUrl (jsInterp body.year) (jsInterp body.make) (jsInterp body.model)
    match env.launch with
    | .error e => (hardFailureResp e, ⟨false, 0, 0⟩)
    | .ok _ =>
      match env.newContext with
      | .error e => (hardFailureResp e, ⟨true, 0, 0⟩)
      | .ok _ =>
        match env.newPage with
        | .error e => (hardFailureResp e, ⟨true, 0, 0⟩)
        | .ok _ =>
          match env.scrape with
          | .error scrapingError =>
            -- inner catch from a scrape failure: close, then fallback synthesis
            match env.respond1 with
            | .error e => (hardFailureResp e, ⟨true, 1, 1⟩)
            | .ok c => (degradedResp c scrapingError url, ⟨true, 1, 1⟩)
          | .ok doc =>
            -- success region: close at line 112, then synthesis
            match env.respond1 with
            | .error synthError =>
              -- the synthesis rejection is caught by the same inner catch:
              -- a second close and a second, fallback synthesis attempt
              match env.respond2 with
              | .error e => (hardFailureResp e, ⟨true, 2, 2⟩)
              | .ok c => (degradedResp c synthError url, ⟨true, 2, 2⟩)
            | .ok c =>
              (successResp c (productInfo doc) (pageContent doc) url
                (htmlPreview doc.content), ⟨true, 1, 1⟩)

/-! ### Concrete fixtures

Small concrete documents, bodies and environments used to instantiate the
theorems below. -/

/-- A product-card element carrying all three sub-fields. -/
def elemA : Element :=
  { qH2OrLoopTitle := some "Piston Kit A"
    qLoopTitle := some "Piston Kit A"
    qPriceOrAmount := some "$99.95"
    qPrice := some "$99.95"
    qImgSrc := some "https://cdn.example.com/a.jpg" }

/-- A product-card element whose price sub-selector matches nothing. -/
def elemB : Element :=
  { qH2OrLoopTitle := some "Piston Kit B"
    qLoopTitle := some "Piston Kit B"
    qPriceOrAmount := none
    qPrice := none
    qImgSrc := some "https://cdn.example.com/b.jpg" }

/-- A document whose primary selector matches two product cards. -/
def docPrimary : Document :=
  { qProduct := [elemA, elemB]
    qAltProduct := []
    qTermDescription := some "Kits de pistón para motocross."
    qBreadcrumb := some "Home / Engine / Piston Kits"
    qPageTitle := some "Piston Kits"
    outerHTML := "<html><body>piston kits</body></html>"
    content := "<html><body>piston kits</body></html>" }

/-- A document where only the secondary, looser selector matches. -/
def docSecondary : Document :=
  { qProduct := []
    qAltProduct := [elemA]
    qTermDescription := none
    qBreadcrumb := none
    qPageTitle := some "Piston Kits"
    outerHTML := "<html><body>list layout</body></html>"
    content := "<html><body>list layout</body></html>" }

/-- A document where both selector tiers match nothing. -/
def docBare : Document :=
  { qProduct := []
    qAltProduct := []
    qTermDescription := none
    qBreadcrumb := none
    qPageTitle := none
    outerHTML := "<html><head></head><body></body></html>"
    content := "<html><head></head><body></body></html>" }

/-- A well-formed request body. -/
def bodyOk : Body :=
  { year := some "2022", make := some "honda", model := some "crf-250-r" }

/-- An environment where scraping succeeds with product cards and the
first synthesis attempt succeeds: the plain success path. -/
def envSuccess : Env :=
  { body := .ok bodyOk
    launch := .ok ()
    newContext := .ok ()
    newPage := .ok ()
    scrape := .ok docPrimary
    respond1 := .ok "Los pistones Pro-X para la Honda CRF 250 R 2022 destacan por su forja de aluminio."
    respond2 := .ok "" }

/-- An environment where scraping succeeds but the first synthesis attempt
rejects and the second (fallback) one succeeds. -/
def envSynthRecovered : Env :=
  { body := .ok bodyOk
    launch := .ok ()
    newContext := .ok ()
    newPage := .ok ()
    scrape := .ok docPrimary
    respond1 := .error "connect ECONNREFUSED 127.0.0.1:1234"
    respond2 := .ok "Los pistones Pro-X ofrecen gran durabilidad." }

/-- An environment where scraping succeeds, the first synthesis attempt
rejects and the fallback attempt succeeds, used for resource accounting. -/
def envDoubleClose : Env :=
  { body := .ok bodyOk
    launch := .ok ()
    newContext := .ok ()
    newPage := .ok ()
    scrape := .ok docSecondary
    respond1 := .error "LM Studio no responde"
    respond2 := .ok "Descripción genérica de pistones Pro-X." }

/-- An environment where navigation exceeds the 30000 ms timeout and the
fallback synthesis succeeds but returns empty content. -/
def envRenderTimeout : Env :=
  { body := .ok bodyOk
    launch := .ok ()
    newContext := .ok ()
    newPage := .ok ()
    scrape := .error "Timeout 30000ms exceeded."
    respond1 := .ok ""
    respond2 := .ok "" }

/-- An environment where context creation rejects after a successful
launch. -/
def envCtxFail : Env :=
  { body := .ok bodyOk
    launch := .ok ()
    newContext := .error "Target page, context or browser has been closed"
    newPage := .ok ()
    scrape := .ok docBare
    respond1 := .ok ""
    respond2 := .ok "" }

/-- An environment whose body parses but carries an empty `year` field;
navigation then fails and the fallback synthesis succeeds. -/
def envEmptyYear : Env :=
  { body := .ok { year := some "", make := some "honda", model := some "crf-250-r" }
    launch := .ok ()
    newContext := .ok ()
    newPage := .ok ()
    scrape := .error "net::ERR_ABORTED"
    respond1 := .ok "Descripción genérica."
    respond2 := .ok "" }

/-- An environment whose body is valid JSON carrying none of the three
fields; everything downstream succeeds. -/
def envNoFields : Env :=
  { body := .ok { year := none, make := none, model := none }
    launch := .ok ()
    newContext := .ok ()
    newPage := .ok ()
    scrape := .ok docBare
    respond1 := .ok "Descripción genérica."
    respond2 := .ok "" }

/-- An environment whose body is not parseable JSON. -/
def envBadJson : Env :=
  { body := .error "Unexpected end of JSON input"
    launch := .ok ()
    newContext := .ok ()
    newPage := .ok ()
    scrape := .ok docBare
    respond1 := .ok ""
    respond2 := .ok "" }

/-- An environment taking the success path on a document where both
selector tiers match nothing. -/
def envBareSuccess : Env :=
  { body := .ok bodyOk
    launch := .ok ()
    newContext := .ok ()
    newPage := .ok ()
    scrape := .ok docBare
    respond1 := .ok "Descripción de pistones Pro-X."
    respond2 := .ok "" }

/-! ### Claims about the extractor and the URL builder -/

/-- Claim C4: the product extractor evaluates its selector tiers in strict
order with the first non-empty result winning.  If the primary selector
set matches no element and the secondary set matches at least one, the
result is exactly the secondary-tier extraction; if the primary set
matches at least one element, the result is exactly the primary-tier
extraction, independent of whatever the secondary selector would have
matched (the secondary tier is never consulted). -/
theorem productInfo_tiered (d : Document) :
    (d.qProduct = [] → d.qAltProduct ≠ [] →
      productInfo d = d.qAltProduct.map extractSecondary)
    ∧ (d.qProduct ≠ [] → ∀ alt : List Element,
      productInfo { d with qAltProduct := alt } = d.qProduct.map extractPrimary) := by
  constructor
  · intro hp ha
    simp [productInfo, hp, List.length_pos_iff_ne_nil.mpr ha]
  · intro hp alt
    simp [productInfo, List.length_eq_zero, hp]

/-- Witness for C4 at concrete documents: a secondary-only document yields
exactly the secondary extraction, and a document with primary matches
yields the primary extraction even when the secondary selector also
matches. -/
theorem productInfo_tiered_witness :
    productInfo docSecondary = List.map extractSecondary [elemA]
    ∧ productInfo { docPrimary with qAltProduct := [elemB] }
      = List.map extractPrimary [elemA, elemB] :=
  ⟨(productInfo_tiered docSecondary).1 rfl (by decide),
   (productInfo_tiered docPrimary).2 (by decide) [elemB]⟩

/-- Claim C8: for every matched product element the three sub-fields are
extracted independently, each defaulting to the empty string when its
sub-selector does not match; an element missing its price sub-element
yields a record with an empty price, and no matched element is ever
dropped (the output has one record per matched element, in order). -/
theorem extract_fields_independent :
    (∀ e : Element,
      extractPrimary e
        = ⟨e.qLoopTitle.getD "", e.qPrice.getD "", e.qImgSrc.getD ""⟩
      ∧ extractSecondary e
        = ⟨e.qH2OrLoopTitle.getD "", e.qPriceOrAmount.getD "", e.qImgSrc.getD ""⟩)
    ∧ (∀ e : Element, e.qPrice = none → (extractPrimary e).price = "")
    ∧ (∀ e : Element, e.qPriceOrAmount = none → (extractSecondary e).price = "")
    ∧ (∀ d : Document, d.qProduct ≠ [] →
        productInfo d = d.qProduct.map extractPrimary
        ∧ (productInfo d).length = d.qProduct.length)
    ∧ (∀ d : Document, d.qProduct = [] → d.qAltProduct ≠ [] →
        (productInfo d).length = d.qAltProduct.length) := by
  refine ⟨fun e => ⟨rfl, rfl⟩, fun e h => by simp [extractPrimary, h],
    fun e h => by simp [extractSecondary, h], fun d h => ?_, fun d hp ha => ?_⟩
  · have : productInfo d = d.qProduct.map extractPrimary := by
      simp [productInfo, List.length_eq_zero, h]
    exact ⟨this, by simp [this]⟩
  · simp [productInfo, hp, List.length_pos_iff_ne_nil.mpr ha]

/-- Witness for C8: the element with no price sub-match produces a record
with empty price, inside an output that keeps both records in order. -/
theorem extract_fields_independent_witness :
    (extractPrimary elemB).price = ""
    ∧ productInfo docPrimary = [extractPrimary elemA, extractPrimary elemB]
    ∧ (productInfo docPrimary).length = 2 :=
  ⟨extract_fields_independent.2.1 elemB rfl,
   (extract_fields_independent.2.2.2.1 docPrimary (by decide)).1,
   by
    have h := (extract_fields_independent.2.2.2.1 docPrimary (by decide)).2
    simpa using h⟩

/-- Helper: the built URL decomposes as a fixed prefix followed by the
three query fields rendered verbatim as the path segments
`yr-(year)/mk-(make)/ml-(model)/`. -/
theorem buildUrl_decomp (y mk md : String) :
    buildUrl y mk md
      = "https://www.pro-x.com/product-category/engine/pistons-piston-components/piston-kits/"
        ++ ("yr-" ++ y ++ "/mk-" ++ mk ++ "/ml-" ++ md ++ "/") ++ "" := by
  simp only [buildUrl, String.append_empty, ← String.append_assoc]
  rfl

/-- Claim C9: the URL builder is pure and deterministic — equal field
values give an identical URL — and its output always contains the year,
make and model substrings verbatim in path position, as the three final
path segments of a fixed catalog prefix. -/
theorem buildUrl_pure_verbatim :
    (∀ y mk md y2 mk2 md2 : String, y = y2 → mk = mk2 → md = md2 →
      buildUrl y mk md = buildUrl y2 mk2 md2)
    ∧ (∀ y mk md : String, ∃ pre post : String,
      buildUrl y mk md
        = pre ++ ("yr-" ++ y ++ "/mk-" ++ mk ++ "/ml-" ++ md ++ "/") ++ post) := by
  constructor
  · intro y mk md y2 mk2 md2 hy hm hd
    rw [hy, hm, hd]
  · intro y mk md
    exact ⟨_, _, buildUrl_decomp y mk md⟩

/-- Witness for C9 at a concrete query: two builds agree and the segments
appear verbatim. -/
theorem buildUrl_pure_verbatim_witness :
    buildUrl "2022" "honda" "crf-250-r" = buildUrl "2022" "honda" "crf-250-r"
    ∧ ∃ pre post : String,
      buildUrl "2022" "honda" "crf-250-r"
        = pre ++ ("yr-" ++ "2022" ++ "/mk-" ++ "honda" ++ "/ml-" ++ "crf-250-r" ++ "/") ++ post :=
  ⟨buildUrl_pure_verbatim.1 "2022" "honda" "crf-250-r" "2022" "honda" "crf-250-r" rfl rfl rfl,
   buildUrl_pure_verbatim.2 "2022" "honda" "crf-250-r"⟩

/-! ### Claims about the orchestrated request flow -/

/-- Helper: a non-empty string has positive length. -/
theorem length_pos_of_ne_empty (s : String) (h : s ≠ "") : 0 < s.length := by
  rcases s with ⟨l⟩
  have hl : l ≠ [] := fun hnil => h (by simp [hnil])
  simpa [String.length] using List.length_pos_iff_ne_nil.mpr hl

/-- Helper: once the body parses and the launch succeeds, the browser is
launched on every remaining branch, and any `url` field the response
carries equals the URL built from the (interpolated) body fields. -/
theorem post_cases (env : Env) (b : Body)
    (hb : env.body = .ok b) (hl : env.launch = .ok ()) :
    (POST env).2.launched = true
    ∧ ((POST env).1.url = none ∨ (POST env).1.url
        = some (buildUrl (jsInterp b.year) (jsInterp b.make) (jsInterp b.model))) := by
  rcases hc : env.newContext with ec | u
  · simp [POST, hb, hl, hc, hardFailureResp]
  · rcases hpg : env.newPage with ep | u2
    · simp [POST, hb, hl, hc, hpg, hardFailureResp]
    · rcases hs : env.scrape with es | doc
      · rcases hr : env.respond1 with e1 | c <;>
          simp [POST, hb, hl, hc, hpg, hs, hr, degradedResp, hardFailureResp]
      · rcases hr : env.respond1 with e1 | c
        · rcases hr2 : env.respond2 with e2 | c2 <;>
            simp [POST, hb, hl, hc, hpg, hs, hr, hr2, degradedResp, hardFailureResp]
        · simp [POST, hb, hl, hc, hpg, hs, hr, successResp]

/-- Claim C1 (amended): when render and extraction succeed but the first
synthesis attempt errors, the error lands in the same catch handler as
scraping errors, so a second, fallback synthesis attempt is made.  If
that fallback succeeds the request returns the degraded shape — with the
synthesis error text in `errorDetails` — and only if the fallback also
errors does the request end as a 500 hard failure. -/
theorem synth_failure_recovery (env : Env) (b : Body) (doc : Document) (e1 : String)
    (hb : env.body = .ok b) (hl : env.launch = .ok ())
    (hc : env.newContext = .ok ()) (hpg : env.newPage = .ok ())
    (hs : env.scrape = .ok doc) (hr1 : env.respond1 = .error e1) :
    (∀ c, env.respond2 = .ok c →
      (POST env).1 = degradedResp c e1
        (buildUrl (jsInterp b.year) (jsInterp b.make) (jsInterp b.model))
      ∧ (POST env).1.status = 200
      ∧ (POST env).2.respondCalls = 2)
    ∧ (∀ e2, env.respond2 = .error e2 →
      (POST env).1 = hardFailureResp e2
      ∧ (POST env).1.status = 500
      ∧ (POST env).2.respondCalls = 2) := by
  constructor
  · intro c hr2
    refine ⟨?_, ?_, ?_⟩ <;> simp [POST, hb, hl, hc, hpg, hs, hr1, hr2, degradedResp]
  · intro e2 hr2
    refine ⟨?_, ?_, ?_⟩ <;> simp [POST, hb, hl, hc, hpg, hs, hr1, hr2, hardFailureResp]

/-- Counterexample to claim C1 as stated: render and extraction succeed,
the backend errors on the first synthesis attempt, yet the request does
not report a hard failure — a second, fallback synthesis runs and the
response is the 200 degraded shape. -/
theorem synthFailureNotTerminal_cex :
    (POST envSynthRecovered).1.status = 200
    ∧ (POST envSynthRecovered).1.scrapingError = some true
    ∧ (POST envSynthRecovered).1.error = none
    ∧ (POST envSynthRecovered).2.respondCalls = 2 := by
  decide

/-- Witness for the amended claim C1 at a concrete environment. -/
theorem synth_failure_recovery_witness :
    (POST envSynthRecovered).1
      = degradedResp "Los pistones Pro-X ofrecen gran durabilidad."
          "connect ECONNREFUSED 127.0.0.1:1234"
          (buildUrl "2022" "honda" "crf-250-r")
    ∧ (POST envSynthRecovered).1.status = 200
    ∧ (POST envSynthRecovered).2.respondCalls = 2 :=
  (synth_failure_recovery envSynthRecovered bodyOk docPrimary
      "connect ECONNREFUSED 127.0.0.1:1234" rfl rfl rfl rfl rfl rfl).1
    "Los pistones Pro-X ofrecen gran durabilidad." rfl

/-- Claim C2 (amended): when navigation fails and the fallback synthesis
succeeds with content `c`, the response is the degraded shape: status
200, `scrapingError` true, `description` equal to `c` (possibly empty),
`errorDetails` equal to the render error text, `url` equal to the URL
built from the query, and `products` and `pageInfo` absent rather than
present-but-empty; the browser is closed once and one synthesis ran. -/
theorem render_failure_degraded (env : Env) (b : Body) (e c : String)
    (hb : env.body = .ok b) (hl : env.launch = .ok ())
    (hc : env.newContext = .ok ()) (hpg : env.newPage = .ok ())
    (hs : env.scrape = .error e) (hr : env.respond1 = .ok c) :
    (POST env).1 = degradedResp c e
      (buildUrl (jsInterp b.year) (jsInterp b.make) (jsInterp b.model))
    ∧ (POST env).1.products = none
    ∧ (POST env).1.pageInfo = none
    ∧ (POST env).2 = ⟨true, 1, 1⟩ := by
  refine ⟨?_, ?_, ?_, ?_⟩ <;> simp [POST, hb, hl, hc, hpg, hs, hr, degradedResp]

/-- Counterexample to claim C2 as stated: on a navigation timeout the
response is indeed degraded (`scrapingError` true, `errorDetails` the
timeout text), but its `products` field is absent from the JSON object —
not an empty list — and when the backend returns empty content the
`description` is empty, not non-empty. -/
theorem render_failure_shape_cex :
    (POST envRenderTimeout).1.scrapingError = some true
    ∧ (POST envRenderTimeout).1.errorDetails = some "Timeout 30000ms exceeded."
    ∧ (POST envRenderTimeout).1.products = none
    ∧ (POST envRenderTimeout).1.products ≠ some []
    ∧ (POST envRenderTimeout).1.description = some "" := by
  decide

/-- Witness for the amended claim C2 at a concrete environment. -/
theorem render_failure_degraded_witness :
    (POST envRenderTimeout).1
      = degradedResp "" "Timeout 30000ms exceeded." (buildUrl "2022" "honda" "crf-250-r")
    ∧ (POST envRenderTimeout).1.products = none
    ∧ (POST envRenderTimeout).1.pageInfo = none
    ∧ (POST envRenderTimeout).2 = ⟨true, 1, 1⟩ :=
  render_failure_degraded envRenderTimeout bodyOk "Timeout 30000ms exceeded." ""
    rfl rfl rfl rfl rfl rfl

/-- Claim C3 (amended): `browser.close()` is invoked exactly once on the
success path and on scrape-failure paths, but twice on the path where the
first synthesis attempt throws after extraction (the catch closes the
already-closed browser again), and zero times when context or page
creation rejects after a successful launch. -/
theorem close_calls_per_path (env : Env) (b : Body)
    (hb : env.body = .ok b) (hl : env.launch = .ok ()) :
    (∀ e, env.newContext = .error e →
      (POST env).2.launched = true ∧ (POST env).2.closeCalls = 0)
    ∧ (env.newContext = .ok () → ∀ e, env.newPage = .error e →
      (POST env).2.launched = true ∧ (POST env).2.closeCalls = 0)
    ∧ (env.newContext = .ok () → env.newPage = .ok () →
      (∀ doc c, env.scrape = .ok doc → env.respond1 = .ok c →
        (POST env).2.closeCalls = 1)
      ∧ (∀ e, env.scrape = .error e → (POST env).2.closeCalls = 1)
      ∧ (∀ doc e1, env.scrape = .ok doc → env.respond1 = .error e1 →
        (POST env).2.closeCalls = 2)) := by
  refine ⟨fun e hce => ?_, fun hc e hpe => ?_, fun hc hpg => ⟨?_, ?_, ?_⟩⟩
  · constructor <;> simp [POST, hb, hl, hce]
  · constructor <;> simp [POST, hb, hl, hc, hpe]
  · intro doc c hs hr
    simp [POST, hb, hl, hc, hpg, hs, hr]
  · intro e hs
    rcases hr : env.respond1 with e1 | c <;> simp [POST, hb, hl, hc, hpg, hs, hr]
  · intro doc e1 hs hr1
    rcases hr2 : env.respond2 with e2 | c2 <;> simp [POST, hb, hl, hc, hpg, hs, hr1, hr2]

/-- Counterexample to claim C3 as stated: a request that completes with a
response (status 200), on the exit path where an exception is raised
after extraction, invokes `browser.close()` twice rather than exactly
once. -/
theorem close_once_cex :
    (POST envDoubleClose).2.closeCalls = 2
    ∧ (POST envDoubleClose).1.status = 200 := by
  decide

/-- Witness for the amended claim C3 at a concrete environment where
context creation rejects: the launched browser is never closed. -/
theorem close_calls_per_path_witness :
    (POST envCtxFail).2.launched = true ∧ (POST envCtxFail).2.closeCalls = 0 :=
  (close_calls_per_path envCtxFail bodyOk rfl rfl).1
    "Target page, context or browser has been closed" rfl

/-- Claim C5: when rendering succeeds but both selector tiers match zero
elements, the request takes the success path (given that synthesis
succeeds, which happens after the routing): the response carries an empty
products list, no degraded flag (`scrapingError` absent, read as false),
no error details, status 200, and page metadata populated from whatever
title/breadcrumb/description elements exist (defaulting to empty strings)
with `htmlLength` strictly positive since the rendered document element
serializes to a non-empty string. -/
theorem zero_products_success_path (env : Env) (b : Body) (doc : Document) (c : String)
    (hb : env.body = .ok b) (hl : env.launch = .ok ())
    (hc : env.newContext = .ok ()) (hpg : env.newPage = .ok ())
    (hs : env.scrape = .ok doc) (hr : env.respond1 = .ok c)
    (hq : doc.qProduct = []) (ha : doc.qAltProduct = [])
    (hhtml : doc.outerHTML ≠ "") :
    (POST env).1.products = some []
    ∧ (POST env).1.scrapingError = none
    ∧ (POST env).1.scrapingError.getD false = false
    ∧ (POST env).1.errorDetails = none
    ∧ (POST env).1.status = 200
    ∧ (POST env).1.pageInfo = some (pageContent doc)
    ∧ (pageContent doc).htmlLength > 0
    ∧ pageContent doc
      = ⟨doc.qTermDescription.getD "", doc.qBreadcrumb.getD "",
          doc.qPageTitle.getD "", doc.outerHTML.length⟩ := by
  have hprod : productInfo doc = [] := by simp [productInfo, hq, ha]
  have hlen : 0 < doc.outerHTML.length := length_pos_of_ne_empty doc.outerHTML hhtml
  refine ⟨?_, ?_, ?_, ?_, ?_, ?_, ?_, rfl⟩ <;>
    simp [POST, hb, hl, hc, hpg, hs, hr, successResp, hprod, pageContent, hlen]

/-- Witness for C5 at a concrete environment with a bare document. -/
theorem zero_products_success_path_witness :
    (POST envBareSuccess).1.products = some []
    ∧ (POST envBareSuccess).1.scrapingError = none
    ∧ (POST envBareSuccess).1.status = 200
    ∧ (POST envBareSuccess).1.pageInfo = some (pageContent docBare)
    ∧ (pageContent docBare).htmlLength > 0 :=
  have h := zero_products_success_path envBareSuccess bodyOk docBare
    "Descripción de pistones Pro-X." rfl rfl rfl rfl rfl rfl rfl rfl (by decide)
  ⟨h.1, h.2.1, h.2.2.2.2.1, h.2.2.2.2.2.1, h.2.2.2.2.2.2.1⟩

/-- Claim C6 (amended): the pipeline does not validate the year, make and
model fields at all — an empty field value is accepted, the browser is
launched, and the value (even empty) is interpolated literally into the
catalog URL path; the only non-emptiness enforcement in the repository is
the client form's `required` input attribute, outside this pipeline. -/
theorem no_field_validation (env : Env) (y mk md : String)
    (hb : env.body = .ok { year := some y, make := some mk, model := some md })
    (hl : env.launch = .ok ()) :
    (POST env).2.launched = true
    ∧ (∀ u, (POST env).1.url = some u → u = buildUrl y mk md)
    ∧ (∃ pre post : String, buildUrl y mk md
        = pre ++ ("yr-" ++ y ++ "/mk-" ++ mk ++ "/ml-" ++ md ++ "/") ++ post) := by
  have h := post_cases env { year := some y, make := some mk, model := some md } hb hl
  refine ⟨h.1, ?_, ⟨_, _, buildUrl_decomp y mk md⟩⟩
  intro u hu
  rcases h.2 with hn | hsome
  · rw [hn] at hu
    exact absurd hu (by simp)
  · rw [hsome] at hu
    exact (Option.some_inj.mp hu).symm

/-- Counterexample to claim C6 as stated: a request whose `year` field is
the empty string is not rejected by any non-emptiness validation — the
browser is launched, no hard-failure shape is produced, and the empty
value is interpolated into the URL, leaving an empty `yr-` path
segment. -/
theorem empty_field_accepted_cex :
    (POST envEmptyYear).2.launched = true
    ∧ (POST envEmptyYear).1.error = none
    ∧ (POST envEmptyYear).1.status = 200
    ∧ (POST envEmptyYear).1.url
      = some "https://www.pro-x.com/product-category/engine/pistons-piston-components/piston-kits/yr-/mk-honda/ml-crf-250-r/" := by
  decide

/-- Witness for the amended claim C6 at a concrete environment with an
empty `year` field. -/
theorem no_field_validation_witness :
    (POST envEmptyYear).2.launched = true
    ∧ "https://www.pro-x.com/product-category/engine/pistons-piston-components/piston-kits/yr-/mk-honda/ml-crf-250-r/"
      = buildUrl "" "honda" "crf-250-r" :=
  ⟨(no_field_validation envEmptyYear "" "honda" "crf-250-r" rfl rfl).1,
   (no_field_validation envEmptyYear "" "honda" "crf-250-r" rfl rfl).2.1
     "https://www.pro-x.com/product-category/engine/pistons-piston-components/piston-kits/yr-/mk-honda/ml-crf-250-r/"
     (by decide)⟩

/-- Claim C7 (amended): the hard-failure-before-resource-acquisition
behaviour holds exactly when the body is not parseable JSON — then the
response is the 500 hard-failure shape and the browser was never
launched, never closed, and no synthesis ran.  A body that is valid JSON
but lacks the three fields is not rejected: the browser is launched and
each missing field is interpolated into the URL as the literal text
`undefined`. -/
theorem malformed_body_hard_failure (env : Env) :
    (∀ e, env.body = .error e →
      (POST env).1 = hardFailureResp e
      ∧ (POST env).1.status = 500
      ∧ (POST env).1.error = some "Error al realizar el scraping"
      ∧ (POST env).1.details = some e
      ∧ (POST env).2 = ⟨false, 0, 0⟩)
    ∧ (env.body = .ok { year := none, make := none, model := none } →
      env.launch = .ok () →
      (POST env).2.launched = true
      ∧ ((POST env).1.url = none ∨ (POST env).1.url
          = some (buildUrl "undefined" "undefined" "undefined"))) := by
  constructor
  · intro e he
    refine ⟨?_, ?_, ?_, ?_, ?_⟩ <;> simp [POST, he, hardFailureResp]
  · intro hb hl
    exact post_cases env { year := none, make := none, model := none } hb hl

/-- Counterexample to claim C7 as stated: a body that is valid JSON but
cannot provide any of the three required fields is not surfaced as a hard
failure — the renderer resource is acquired, the request completes with
status 200, and the URL carries `undefined` path segments. -/
theorem missing_fields_not_rejected_cex :
    (POST envNoFields).1.status = 200
    ∧ (POST envNoFields).1.error = none
    ∧ (POST envNoFields).2.launched = true
    ∧ (POST envNoFields).1.url
      = some "https://www.pro-x.com/product-category/engine/pistons-piston-components/piston-kits/yr-undefined/mk-undefined/ml-undefined/" := by
  decide

/-- Witness for the amended claim C7 at a concrete unparseable body. -/
theorem malformed_body_hard_failure_witness :
    (POST envBadJson).1 = hardFailureResp "Unexpected end of JSON input"
    ∧ (POST envBadJson).1.status = 500
    ∧ (POST envBadJson).1.error = some "Error al realizar el scraping"
    ∧ (POST envBadJson).1.details = some "Unexpected end of JSON input"
    ∧ (POST envBadJson).2 = ⟨false, 0, 0⟩ :=
  (malformed_body_hard_failure envBadJson).1 "Unexpected end of JSON input" rfl

/-- Claim C10: every response produced on the success path carries, beyond
the description, products, page-info and url fields, an `htmlPreview`
field equal to the first 500 characters of the serialized rendered markup
concatenated with the literal `"..."`. -/
theorem htmlPreview_field (env : Env) (b : Body) (doc : Document) (c : String)
    (hb : env.body = .ok b) (hl : env.launch = .ok ())
    (hc : env.newContext = .ok ()) (hpg : env.newPage = .ok ())
    (hs : env.scrape = .ok doc) (hr : env.respond1 = .ok c) :
    (POST env).1.htmlPreview = some (doc.content.take 500 ++ "...")
    ∧ (POST env).1.description = some c
    ∧ (POST env).1.products = some (productInfo doc)
    ∧ (POST env).1.pageInfo = some (pageContent doc)
    ∧ (POST env).1.url
      = some (buildUrl (jsInterp b.year) (jsInterp b.make) (jsInterp b.model)) := by
  refine ⟨?_, ?_, ?_, ?_, ?_⟩ <;>
    simp [POST, hb, hl, hc, hpg, hs, hr, successResp, htmlPreview]

/-- Witness for C10 at a concrete success environment. -/
theorem htmlPreview_field_witness :
    (POST envSuccess).1.htmlPreview
      = some ("<html><body>piston kits</body></html>".take 500 ++ "...")
    ∧ (POST envSuccess).1.products = some (productInfo docPrimary) :=
  have h := htmlPreview_field envSuccess bodyOk docPrimary
    "Los pistones Pro-X para la Honda CRF 250 R 2022 destacan por su forja de aluminio."
    rfl rfl rfl rfl rfl rfl
  ⟨h.1, h.2.2.1⟩

end ScrapeRoute
